import Mathlib

/-!
Verification development for the Collatz random-tester repository
(`3x1.py`, `migrate_to_sqlite.py`).

The Python source is shallowly embedded here:

* `hash_number` is modelled bit-for-bit, including a full executable
  SHA-256 over the UTF-8 bytes of the decimal representation
  (`hashlib.sha256(str(n).encode('utf-8')).digest()`).
* the SQLite-backed stores are modelled by `Conn`: a committed part
  (`tested`, `statsRow`) plus the current transaction's uncommitted
  writes (`pendTested`, `pendStatsRow`); SQL reads on the same
  connection see the connection's own uncommitted writes.
* `collatz_steps` mirrors the loop of lines 132-157 of `3x1.py`; the
  structural `fuel` argument is an upper bound on the remaining loop
  iterations and is never the reason the loop stops (the source's
  `steps > 100000` guard always fires first; see
  `collatzLoop_fuel_congr`).
* `test_random_large_numbers` mirrors the session driver.  Python's
  `random.randint` stream is an explicit input `stream : Nat → Nat`
  (the candidate drawn at attempt `i` is `stream i`).  Python
  exceptions are modelled by `Except PyError`; the two reachable
  `ZeroDivisionError` flavours (`%` by zero and `/` by zero) are the
  two constructors of `PyError`.  Wall-clock timing, console printing
  and float formatting are not modelled; divisions that Python
  performs while printing are kept as explicit divisor-is-zero checks
  because they can raise `ZeroDivisionError`.
-/

/-! ### SHA-256, as used by `hash_number` (3x1.py lines 23-25) -/

/-- Addition modulo 2^32. -/
def add32 (a b : Nat) : Nat := (a + b) % 4294967296

/-- Right rotation of a 32-bit word (`r` is one of the fixed SHA-256
rotation amounts, all strictly between 0 and 32). -/
def rotr32 (x r : Nat) : Nat := ((x >>> r) ||| (x <<< (32 - r))) % 4294967296

/-- SHA-256 choice function `Ch(e,f,g)`. -/
def sha256Ch (e f g : Nat) : Nat := (e &&& f) ^^^ ((e ^^^ 4294967295) &&& g)

/-- SHA-256 majority function `Maj(a,b,c)`. -/
def sha256Maj (a b c : Nat) : Nat := (a &&& b) ^^^ (a &&& c) ^^^ (b &&& c)

/-- SHA-256 big sigma-0. -/
def bigSigma0 (a : Nat) : Nat := rotr32 a 2 ^^^ rotr32 a 13 ^^^ rotr32 a 22

/-- SHA-256 big sigma-1. -/
def bigSigma1 (e : Nat) : Nat := rotr32 e 6 ^^^ rotr32 e 11 ^^^ rotr32 e 25

/-- SHA-256 small sigma-0. -/
def smallSigma0 (x : Nat) : Nat := rotr32 x 7 ^^^ rotr32 x 18 ^^^ (x >>> 3)

/-- SHA-256 small sigma-1. -/
def smallSigma1 (x : Nat) : Nat := rotr32 x 17 ^^^ rotr32 x 19 ^^^ (x >>> 10)

/-- The 64 SHA-256 round constants. -/
def sha256K : List Nat :=
  [1116352408, 1899447441, 3049323471, 3921009573,
   961987163, 1508970993, 2453635748, 2870763221,
   3624381080, 310598401, 607225278, 1426881987,
   1925078388, 2162078206, 2614888103, 3248222580,
   3835390401, 4022224774, 264347078, 604807628,
   770255983, 1249150122, 1555081692, 1996064986,
   2554220882, 2821834349, 2952996808, 3210313671,
   3336571891, 3584528711, 113926993, 338241895,
   666307205, 773529912, 1294757372, 1396182291,
   1695183700, 1986661051, 2177026350, 2456956037,
   2730485921, 2820302411, 3259730800, 3345764771,
   3516065817, 3600352804, 4094571909, 275423344,
   430227734, 506948616, 659060556, 883997877,
   958139571, 1322822218, 1537002063, 1747873779,
   1955562222, 2024104815, 2227730452, 2361852424,
   2428436474, 2756734187, 3204031479, 3329325298]

/-- The eight SHA-256 working registers (also used for the running hash
value `H0..H7`). -/
structure Sha256Regs where
  a : Nat
  b : Nat
  c : Nat
  d : Nat
  e : Nat
  f : Nat
  g : Nat
  h : Nat
deriving DecidableEq

/-- One SHA-256 compression round with round constant `k` and message
schedule word `w`. -/
def sha256Round (r : Sha256Regs) (k w : Nat) : Sha256Regs :=
  let t1 := (r.h + bigSigma1 r.e + sha256Ch r.e r.f r.g + k + w) % 4294967296
  let t2 := (bigSigma0 r.a + sha256Maj r.a r.b r.c) % 4294967296
  ⟨(t1 + t2) % 4294967296, r.a, r.b, r.c, (r.d + t1) % 4294967296, r.e, r.f, r.g⟩

/-- Run the 64 compression rounds over the zipped list of round
constants and schedule words. -/
def sha256Rounds : List (Nat × Nat) → Sha256Regs → Sha256Regs
  | [], r => r
  | (k, w) :: rest, r => sha256Rounds rest (sha256Round r k w)

/-- Extend the message schedule.  `ws` holds the schedule words
produced so far, most recent first; `t` more words are appended. -/
def sha256ScheduleAux : Nat → List Nat → List Nat
  | 0, ws => ws
  | t + 1, ws =>
    let w := (smallSigma1 (ws.getD 1 0) + ws.getD 6 0 +
              smallSigma0 (ws.getD 14 0) + ws.getD 15 0) % 4294967296
    sha256ScheduleAux t (w :: ws)

/-- The 64-word message schedule of a 16-word block. -/
def sha256Schedule (block : List Nat) : List Nat :=
  (sha256ScheduleAux 48 block.reverse).reverse

/-- Compress one 16-word block into the running hash value. -/
def sha256CompressBlock (hs : Sha256Regs) (block : List Nat) : Sha256Regs :=
  let r := sha256Rounds (sha256K.zip (sha256Schedule block)) hs
  ⟨add32 hs.a r.a, add32 hs.b r.b, add32 hs.c r.c, add32 hs.d r.d,
   add32 hs.e r.e, add32 hs.f r.f, add32 hs.g r.g, add32 hs.h r.h⟩

/-- Fold the compression function over the padded message, 16 words
(one 512-bit block) at a time. -/
def sha256ProcessWords : Sha256Regs → List Nat → Sha256Regs
  | hs, w0 :: w1 :: w2 :: w3 :: w4 :: w5 :: w6 :: w7 ::
        w8 :: w9 :: w10 :: w11 :: w12 :: w13 :: w14 :: w15 :: rest =>
    sha256ProcessWords
      (sha256CompressBlock hs
        [w0, w1, w2, w3, w4, w5, w6, w7, w8, w9, w10, w11, w12, w13, w14, w15]) rest
  | hs, _ => hs

/-- Big-endian packing of bytes into 32-bit words. -/
def bytesToWords : List Nat → List Nat
  | b0 :: b1 :: b2 :: b3 :: rest =>
    (((b0 * 256 + b1) * 256 + b2) * 256 + b3) :: bytesToWords rest
  | _ => []

/-- The 8-byte big-endian encoding of the message bit length. -/
def lenBytes8 (n : Nat) : List Nat :=
  [(n >>> 56) % 256, (n >>> 48) % 256, (n >>> 40) % 256, (n >>> 32) % 256,
   (n >>> 24) % 256, (n >>> 16) % 256, (n >>> 8) % 256, n % 256]

/-- SHA-256 padding: append `0x80`, zero bytes up to 56 mod 64, then
the 64-bit big-endian bit length. -/
def sha256Pad (msg : List Nat) : List Nat :=
  msg ++ (128 :: List.replicate ((119 - msg.length % 64) % 64) 0) ++ lenBytes8 (8 * msg.length)

/-- Big-endian unpacking of 32-bit words into bytes. -/
def wordsToBytes : List Nat → List Nat
  | [] => []
  | w :: rest => (w >>> 24) % 256 :: (w >>> 16) % 256 :: (w >>> 8) % 256 :: w % 256 :: wordsToBytes rest

/-- SHA-256 of a byte string, producing the 32-byte digest. -/
def sha256 (msg : List Nat) : List Nat :=
  let hs := sha256ProcessWords
    ⟨1779033703, 3144134277, 1013904242, 2773480762,
     1359893119, 2600822924, 528734635, 1541459225⟩
    (bytesToWords (sha256Pad msg))
  wordsToBytes [hs.a, hs.b, hs.c, hs.d, hs.e, hs.f, hs.g, hs.h]

/-- Decimal digits of `n` as ASCII byte codes, accumulator style.  The
fuel `n + 1` in `decimalBytes` suffices because the argument is divided
by 10 at every step. -/
def decDigitsAux : Nat → Nat → List Nat → List Nat
  | 0, _, acc => acc
  | fuel + 1, n, acc =>
    if n < 10 then (48 + n) :: acc
    else decDigitsAux fuel (n / 10) ((48 + n % 10) :: acc)

/-- UTF-8 bytes of `str(n)` for a natural number `n` (ASCII decimal). -/
def decimalBytes (n : Nat) : List Nat := decDigitsAux (n + 1) n []

/-- Lines 23-25 of `3x1.py`: `hash_number(n)` is the SHA-256 digest of
the decimal string of `n`.  All numbers handled by the driver are
positive, so the model uses `Nat`. -/
def hash_number (n : Nat) : List Nat := sha256 (decimalBytes n)

/-! ### The all-time statistics record (3x1.py lines 61-90) -/

/-- The all-time statistics dictionary of `3x1.py` (the six keys built
at lines 71-78 and stored as the single `stats` row). -/
structure AllTimeStats where
  longest_sequence : Nat
  longest_num : Nat
  highest_peak : Nat
  highest_peak_num : Nat
  total_steps : Nat
  total_numbers : Nat
deriving DecidableEq

/-- The zero-valued record returned by `load_all_time_stats` when no
row exists yet (lines 71-78). -/
def default_all_time_stats : AllTimeStats :=
  { longest_sequence := 0, longest_num := 0, highest_peak := 0,
    highest_peak_num := 0, total_steps := 0, total_numbers := 0 }

/-! ### The SQLite connection (3x1.py lines 28-109)

A connection holds the committed database state plus the current
transaction's uncommitted writes.  SQL statements executed on the
connection see the connection's own uncommitted writes; `commit` makes
them part of the committed state. -/

/-- State of one SQLite connection to the store: committed rows of
table `tested` (digests) and of the `stats` row, plus the uncommitted
writes of the open transaction. -/
structure Conn where
  tested : Finset (List Nat)
  statsRow : Option AllTimeStats
  pendTested : Finset (List Nat)
  pendStatsRow : Option AllTimeStats
deriving DecidableEq

/-- A freshly created, empty store. -/
def emptyConn : Conn := ⟨∅, none, ∅, none⟩

/-- Python's `conn.commit()`: the transaction's inserts become
committed rows, an uncommitted `INSERT OR REPLACE` of the stats row
replaces the committed row. -/
def Conn.commit (c : Conn) : Conn :=
  { tested := c.tested ∪ c.pendTested,
    statsRow := match c.pendStatsRow with
      | some s => some s
      | none => c.statsRow,
    pendTested := ∅,
    pendStatsRow := none }

/-- Lines 93-96: `SELECT COUNT(*) FROM tested` (the connection sees
its own uncommitted inserts). -/
def get_tested_count (conn : Conn) : Nat := (conn.tested ∪ conn.pendTested).card

/-- Lines 99-103: `has_been_tested` checks whether the digest of `n`
is a row of `tested`. -/
def has_been_tested (conn : Conn) (n : Nat) : Bool :=
  decide (hash_number n ∈ conn.tested ∪ conn.pendTested)

/-- One row of the `executemany('INSERT OR IGNORE INTO tested ...')`
of lines 106-109: insert the digest unless it is already a row. -/
def insert_or_ignore (c : Conn) (n : Nat) : Conn :=
  if hash_number n ∈ c.tested ∪ c.pendTested then c
  else { c with pendTested := insert (hash_number n) c.pendTested }

/-- Lines 106-109: `mark_tested_batch` inserts the digests of all the
numbers in one statement, ignoring duplicates.  It does not commit;
its caller does. -/
def mark_tested_batch (conn : Conn) (numbers : List Nat) : Conn :=
  numbers.foldl insert_or_ignore conn

/-- Lines 61-78: `load_all_time_stats` reads the stats row (seeing the
connection's own uncommitted write, if any) and falls back to the
zero-valued record when there is no row. -/
def load_all_time_stats (conn : Conn) : AllTimeStats :=
  match conn.pendStatsRow with
  | some s => s
  | none =>
    match conn.statsRow with
    | some s => s
    | none => default_all_time_stats

/-- Lines 81-90: `save_all_time_stats` executes an
`INSERT OR REPLACE` of the stats row and commits. -/
def save_all_time_stats (conn : Conn) (stats : AllTimeStats) : Conn :=
  Conn.commit { conn with pendStatsRow := some stats }

/-! ### Opening the store (3x1.py lines 28-58) -/

/-- What `init_db` finds on disk at `db_path`. -/
inductive FileState where
  | absent
  | valid (tested : Finset (List Nat)) (statsRow : Option AllTimeStats)
  | corrupt
deriving DecidableEq

/-- Error kind modelled from the spec: the spec's failure taxonomy
names a `CorruptStoreError` that the store component is said to signal
on corruption detected at open.  No such error exists in the source;
the type is needed to state that claim. -/
inductive StoreError where
  | corruptStore
deriving DecidableEq

/-- Lines 28-58: `init_db`.  If the file exists but is corrupt
(`sqlite3.DatabaseError` from the probe connection), the source
removes the file and falls through to creating a fresh database; it
never raises.  `CREATE TABLE IF NOT EXISTS` keeps the rows of a valid
existing database. -/
def init_db (fs : FileState) : Except StoreError Conn :=
  match fs with
  | FileState.absent => Except.ok emptyConn
  | FileState.valid tested statsRow => Except.ok ⟨tested, statsRow, ∅, none⟩
  | FileState.corrupt => Except.ok emptyConn

/-! ### The sequence evaluator (3x1.py lines 132-157) -/

/-- One Collatz step, the body of the `while` of lines 144-148:
halve if even, else `3n+1`. -/
def collatzNext (n : Nat) : Nat := if n % 2 = 0 then n / 2 else 3 * n + 1

/-- The `while` loop of lines 144-157.  `fuel` is a structural bound
on the remaining iterations; it is never the reason the loop stops:
the source's safety check returns as soon as `steps` exceeds 100000,
so with `fuel + steps ≥ 100002` the zero-fuel branch is unreachable
(`collatzLoop_fuel_congr` below makes this precise). -/
def collatzLoop : Nat → Nat → Nat → Nat → Nat × Nat
  | 0, _, steps, max_val => (steps, max_val)
  | fuel + 1, n, steps, max_val =>
    if n = 1 then (steps, max_val)
    else
      let n' := collatzNext n
      let steps' := steps + 1
      let max_val' := max max_val n'
      if steps' > 100000 then (steps', max_val')
      else collatzLoop fuel n' steps' max_val'

/-- Lines 132-157: `collatz_steps(n)` returns the pair
`(steps, max_value_reached)`. -/
def collatz_steps (n : Nat) : Nat × Nat :=
  if n = 1 then (0, 1)
  else collatzLoop 100002 n 0 n

/-- Reference predicate: the Collatz trajectory of `n` reaches 1
within `t` applications of `collatzNext`. -/
def trajHits1 : Nat → Nat → Bool
  | n, 0 => n == 1
  | n, t + 1 => n == 1 || trajHits1 (collatzNext n) t

/-! ### The session driver (3x1.py lines 160-352)

The driver's console output is not modelled, except that every integer
division or modulo Python performs on the way (including inside
f-strings) is kept, because it can raise `ZeroDivisionError`.  The
wall-clock rates of lines 270, 303-304 divide by a strictly positive
float measurement and are omitted along with the timing itself. -/

/-- The two flavours of Python `ZeroDivisionError` the driver can
raise: `modByZero` is `ZeroDivisionError: integer division or modulo
by zero` (from `%` with divisor 0), `divByZero` is `ZeroDivisionError:
division by zero` (from `/` with divisor 0). -/
inductive PyError where
  | modByZero
  | divByZero
deriving DecidableEq

/-- Descending comparison on `(key, number)` pairs, matching Python's
`list.sort(reverse=True)` on tuples (lexicographic). -/
def pairDesc (a b : Nat × Nat) : Bool :=
  decide (b.1 < a.1 ∨ (a.1 = b.1 ∧ b.2 ≤ a.2))

/-- Lines 258-264: append a pair, sort descending, keep the first 10. -/
def topTen (l : List (Nat × Nat)) (p : Nat × Nat) : List (Nat × Nat) :=
  ((l ++ [p]).mergeSort pairDesc).take 10

/-- The mutable state of the sampling loop (lines 180-216), minus the
attempt counter, which `sampleLoop` threads separately.  The
`shortest_sequence` locals (lines 194-195, 247-249) are omitted: they
are written but never read.  The `all_reach_one` flag (line 186) is
omitted: it is never reassigned. -/
structure LoopState where
  conn : Conn
  sessionTested : Finset Nat
  testCount : Nat
  duplicatesSkipped : Nat
  batchToSave : List Nat
  sessionTotalSteps : Nat
  allTime : AllTimeStats
  longestSequence : Nat
  longestNum : Nat
  highestPeak : Nat
  highestPeakNum : Nat
  top10Longest : List (Nat × Nat)
  top10Highest : List (Nat × Nat)
deriving DecidableEq

/-- Lines 177-216: the state just before the `while` loop.  The local
record variables are initialised from the loaded all-time stats
(lines 188-192). -/
def initialLoopState (conn : Conn) : LoopState :=
  let stats := load_all_time_stats conn
  { conn := conn, sessionTested := ∅, testCount := 0, duplicatesSkipped := 0,
    batchToSave := [], sessionTotalSteps := 0, allTime := stats,
    longestSequence := stats.longest_sequence, longestNum := stats.longest_num,
    highestPeak := stats.highest_peak, highestPeakNum := stats.highest_peak_num,
    top10Longest := [], top10Highest := [] }

/-- Lines 228-264: processing of one new (non-duplicate) candidate:
record it in the session cache and pending batch, bump the test
counter, evaluate the Collatz trajectory, accumulate totals, update
the all-time records (strict `>` comparisons, locals and the dict in
lockstep) and the session top-10 lists. -/
def processNew (num : Nat) (st : LoopState) : LoopState :=
  let st1 := { st with sessionTested := insert num st.sessionTested,
                       batchToSave := st.batchToSave ++ [num],
                       testCount := st.testCount + 1 }
  let sm := collatz_steps num
  let steps := sm.1
  let max_val := sm.2
  let st2 := { st1 with
    sessionTotalSteps := st1.sessionTotalSteps + steps,
    allTime := { st1.allTime with
      total_steps := st1.allTime.total_steps + steps,
      total_numbers := st1.allTime.total_numbers + 1 } }
  let st3 :=
    if steps > st2.longestSequence then
      { st2 with longestSequence := steps, longestNum := num,
                 allTime := { st2.allTime with longest_sequence := steps, longest_num := num } }
    else st2
  let st4 :=
    if max_val > st3.highestPeak then
      { st3 with highestPeak := max_val, highestPeakNum := num,
                 allTime := { st3.allTime with highest_peak := max_val, highest_peak_num := num } }
    else st3
  { st4 with top10Longest := topTen st4.top10Longest (steps, num),
             top10Highest := topTen st4.top10Highest (max_val, num) }

/-- Lines 275-278: the periodic batch save: if the pending buffer is
non-empty, `mark_tested_batch` it, commit the connection and clear the
buffer.  The statistics row is not touched here. -/
def checkpointFlush (st : LoopState) : LoopState :=
  if st.batchToSave = [] then st
  else { st with conn := Conn.commit (mark_tested_batch st.conn st.batchToSave),
                 batchToSave := [] }

/-- The `while` loop of lines 218-278.  `attempts` is threaded as an
explicit argument (it is read only by the loop condition, the progress
print and the session-summary print); the returned triple is the final
attempt count, the loop state, and the pending exception if the
iteration raised (`test_count % checkpoint` with `checkpoint = 0`
raises `ZeroDivisionError`, line 267). -/
def sampleLoop (numTests checkpoint maxAttempts : Nat) (stream : Nat → Nat)
    (attempts : Nat) (st : LoopState) : Nat × LoopState × Option PyError :=
  if h : st.testCount < numTests ∧ attempts < maxAttempts then
    if stream attempts ∈ st.sessionTested ∨ has_been_tested st.conn (stream attempts) then
      sampleLoop numTests checkpoint maxAttempts stream (attempts + 1)
        { st with duplicatesSkipped := st.duplicatesSkipped + 1 }
    else if checkpoint = 0 then
      (attempts + 1, processNew (stream attempts) st, some PyError.modByZero)
    else if (processNew (stream attempts) st).testCount % checkpoint = 0 then
      sampleLoop numTests checkpoint maxAttempts stream (attempts + 1)
        (checkpointFlush (processNew (stream attempts) st))
    else
      sampleLoop numTests checkpoint maxAttempts stream (attempts + 1)
        (processNew (stream attempts) st)
  else (attempts, st, none)
termination_by maxAttempts - attempts
decreasing_by all_goals omega

/-- The block written to the results log for one session (lines
331-341), minus the wall-clock timestamp and the float
`average_steps` (its division is accounted for in the driver). -/
structure SessionInfo where
  tested_this_session : Nat
  total_unique : Nat
  longest_sequence : Nat
  longest_num : Nat
  highest_peak : Nat
  highest_peak_num : Nat
deriving DecidableEq

/-- The dictionary returned by `test_random_large_numbers`
(lines 347-352), together with the session-log entry the driver
appended (line 341). -/
structure DriverResult where
  session_tested : Nat
  total_unique : Nat
  duplicates_skipped : Nat
  all_time_stats : AllTimeStats
  logEntry : SessionInfo
deriving DecidableEq

/-- Lines 160-352: `test_random_large_numbers` with an explicit
candidate stream in place of `random.randint` and the caller-supplied
connection.  On success it returns the final connection and the result
dictionary plus log entry; a Python exception surfaces as `.error`.
`checkpoint` is the integer division of line 204, `max_attempts` the
cap of line 214.  After the loop: final batch save and stats commit
(lines 283-287), then the summary prints, whose divisions are the four
guarded checks below (lines 302, 309, 317 and 325-328). -/
def test_random_large_numbers (num_tests : Nat) (stream : Nat → Nat) (conn : Conn) :
    Except PyError (Conn × DriverResult) :=
  let checkpoint := num_tests / 20
  let max_attempts := num_tests * 100
  match sampleLoop num_tests checkpoint max_attempts stream 0 (initialLoopState conn) with
  | (_, _, some e) => Except.error e
  | (_, st, none) =>
    let conn1 := if st.batchToSave = [] then st.conn else mark_tested_batch st.conn st.batchToSave
    let conn2 := save_all_time_stats conn1 st.allTime
    let conn3 := Conn.commit conn2
    let final_count := get_tested_count conn3
    if st.testCount = 0 then Except.error PyError.divByZero
    else if st.allTime.total_numbers = 0 then Except.error PyError.divByZero
    else if st.highestPeakNum = 0 then Except.error PyError.divByZero
    else if st.top10Highest.any (fun p => p.2 = 0) then Except.error PyError.divByZero
    else
      Except.ok (conn3,
        { session_tested := st.testCount,
          total_unique := final_count,
          duplicates_skipped := st.duplicatesSkipped,
          all_time_stats := st.allTime,
          logEntry :=
            { tested_this_session := st.testCount,
              total_unique := final_count,
              longest_sequence := st.longestSequence,
              longest_num := st.longestNum,
              highest_peak := st.highestPeak,
              highest_peak_num := st.highestPeakNum } })

/-- The effect of one evaluated candidate on the all-time statistics
dictionary (lines 237-238 and 240-255): totals always accumulate, the
two records move only under strict `>` comparisons. -/
def record_update (a : AllTimeStats) (num steps max_val : Nat) : AllTimeStats :=
  let a1 := { a with total_steps := a.total_steps + steps,
                     total_numbers := a.total_numbers + 1 }
  let a2 :=
    if steps > a1.longest_sequence then
      { a1 with longest_sequence := steps, longest_num := num }
    else a1
  if max_val > a2.highest_peak then
    { a2 with highest_peak := max_val, highest_peak_num := num }
  else a2

/-! ### Store lemmas and claims C1, C2 -/

theorem insert_or_ignore_mono (c : Conn) (n : Nat) (h : List Nat)
    (hmem : h ∈ c.tested ∪ c.pendTested) :
    h ∈ (insert_or_ignore c n).tested ∪ (insert_or_ignore c n).pendTested := by
  unfold insert_or_ignore
  split
  · exact hmem
  · simp only [Finset.mem_union] at hmem ⊢
    rcases hmem with h1 | h2
    · exact Or.inl h1
    · exact Or.inr (Finset.mem_insert_of_mem h2)

theorem insert_or_ignore_self (c : Conn) (n : Nat) :
    hash_number n ∈ (insert_or_ignore c n).tested ∪ (insert_or_ignore c n).pendTested := by
  unfold insert_or_ignore
  split
  · assumption
  · simp

theorem insert_or_ignore_idem (c : Conn) (n : Nat) :
    insert_or_ignore (insert_or_ignore c n) n = insert_or_ignore c n := by
  have hmem := insert_or_ignore_self c n
  rw [insert_or_ignore, if_pos]
  simpa using hmem

theorem mark_tested_batch_mono : ∀ (ns : List Nat) (c : Conn) (h : List Nat),
    h ∈ c.tested ∪ c.pendTested →
    h ∈ (mark_tested_batch c ns).tested ∪ (mark_tested_batch c ns).pendTested := by
  intro ns
  induction ns with
  | nil => intro c h hmem; simpa [mark_tested_batch] using hmem
  | cons y ys ih =>
    intro c h hmem
    have : mark_tested_batch c (y :: ys) = mark_tested_batch (insert_or_ignore c y) ys := by
      simp [mark_tested_batch]
    rw [this]
    exact ih _ _ (insert_or_ignore_mono c y h hmem)

theorem mark_tested_batch_mem : ∀ (ns : List Nat) (c : Conn) (x : Nat), x ∈ ns →
    hash_number x ∈ (mark_tested_batch c ns).tested ∪ (mark_tested_batch c ns).pendTested := by
  intro ns
  induction ns with
  | nil => intro c x hx; cases hx
  | cons y ys ih =>
    intro c x hx
    have hstep : mark_tested_batch c (y :: ys) = mark_tested_batch (insert_or_ignore c y) ys := by
      simp [mark_tested_batch]
    rw [hstep]
    rcases List.mem_cons.mp hx with rfl | hmem
    · exact mark_tested_batch_mono ys _ _ (insert_or_ignore_self c x)
    · exact ih _ _ hmem

/-- Claim C1: for every integer `x` in a batch insert, once the batch
is committed, a subsequent existence check on `x` returns true — both
operations key on the same `hash_number` digest of the decimal
string of `x`. -/
theorem c1_exists_after_committed_batch (conn : Conn) (ns : List Nat) (x : Nat)
    (hx : x ∈ ns) :
    has_been_tested (Conn.commit (mark_tested_batch conn ns)) x = true := by
  have hmem := mark_tested_batch_mem ns conn x hx
  simp only [has_been_tested, Conn.commit, Finset.union_empty, decide_eq_true_eq]
  simpa using hmem

/-- Witness for C1 at a concrete input. -/
theorem c1_exists_after_committed_batch_witness :
    (5 : Nat) ∈ [5] ∧
    has_been_tested (Conn.commit (mark_tested_batch emptyConn [5])) 5 = true :=
  ⟨by decide, c1_exists_after_committed_batch emptyConn [5] 5 (by decide)⟩

/-- Claim C2: the batch insert is idempotent — re-inserting `x` (in a
second call, or duplicated within one batch) never creates a second
entry, leaves `get_tested_count` unchanged relative to after the first
insert, and the existence check on `x` is true after either call.  All
operations are total, so no error is possible. -/
theorem c2_batch_insert_idempotent (conn : Conn) (x : Nat) :
    get_tested_count (mark_tested_batch (mark_tested_batch conn [x]) [x]) =
      get_tested_count (mark_tested_batch conn [x]) ∧
    mark_tested_batch conn [x, x] = mark_tested_batch conn [x] ∧
    mark_tested_batch (mark_tested_batch conn [x]) [x] = mark_tested_batch conn [x] ∧
    has_been_tested (mark_tested_batch conn [x]) x = true ∧
    has_been_tested (mark_tested_batch (mark_tested_batch conn [x]) [x]) x = true := by
  have hsingle : mark_tested_batch conn [x] = insert_or_ignore conn x := by
    simp [mark_tested_batch]
  have hsingle2 : mark_tested_batch (mark_tested_batch conn [x]) [x] =
      insert_or_ignore (insert_or_ignore conn x) x := by
    simp [mark_tested_batch, hsingle]
  have hpair : mark_tested_batch conn [x, x] =
      insert_or_ignore (insert_or_ignore conn x) x := by
    simp [mark_tested_batch]
  have hid := insert_or_ignore_idem conn x
  have hself := insert_or_ignore_self conn x
  refine ⟨?_, ?_, ?_, ?_, ?_⟩
  · rw [hsingle2, hsingle, hid]
  · rw [hpair, hsingle, hid]
  · rw [hsingle2, hsingle, hid]
  · rw [hsingle]
    simpa [has_been_tested] using hself
  · rw [hsingle2, hid, ← hsingle]
    rw [hsingle]
    simpa [has_been_tested] using hself

/-! ### Claim C5: reference values of the evaluator -/

set_option maxRecDepth 40000 in
/-- Claim C5: the evaluator returns the reference Collatz step counts
and trajectory peaks: `collatz_steps 1 = (0, 1)`,
`collatz_steps 6 = (8, 16)` and `collatz_steps 27 = (111, 9232)`,
each computed by the loop well within the default cutoff. -/
theorem c5_collatz_reference_values :
    collatz_steps 1 = (0, 1) ∧ collatz_steps 6 = (8, 16) ∧
    collatz_steps 27 = (111, 9232) := by decide

/-! ### Record-update lemmas and claim C3 -/

theorem record_update_longest_mono (a : AllTimeStats) (num steps max_val : Nat) :
    a.longest_sequence ≤ (record_update a num steps max_val).longest_sequence := by
  unfold record_update
  dsimp only
  split <;> split <;> simp_all <;> omega

theorem record_update_peak_mono (a : AllTimeStats) (num steps max_val : Nat) :
    a.highest_peak ≤ (record_update a num steps max_val).highest_peak := by
  unfold record_update
  dsimp only
  split <;> split <;> simp_all <;> omega

theorem record_update_longest_num_tie (a : AllTimeStats) (num steps max_val : Nat)
    (h : steps ≤ a.longest_sequence) :
    (record_update a num steps max_val).longest_num = a.longest_num := by
  unfold record_update
  dsimp only
  split <;> split <;> simp_all <;> omega

theorem record_update_peak_num_tie (a : AllTimeStats) (num steps max_val : Nat)
    (h : max_val ≤ a.highest_peak) :
    (record_update a num steps max_val).highest_peak_num = a.highest_peak_num := by
  unfold record_update
  dsimp only
  split <;> split <;> simp_all <;> omega

theorem foldl_record_update_longest_mono (l : List (Nat × Nat × Nat)) : ∀ a : AllTimeStats,
    a.longest_sequence ≤
      (l.foldl (fun b t => record_update b t.1 t.2.1 t.2.2) a).longest_sequence := by
  induction l with
  | nil => intro a; simp
  | cons t ts ih =>
    intro a
    calc a.longest_sequence ≤ (record_update a t.1 t.2.1 t.2.2).longest_sequence :=
          record_update_longest_mono a t.1 t.2.1 t.2.2
      _ ≤ _ := by simpa using ih (record_update a t.1 t.2.1 t.2.2)

theorem foldl_record_update_peak_mono (l : List (Nat × Nat × Nat)) : ∀ a : AllTimeStats,
    a.highest_peak ≤
      (l.foldl (fun b t => record_update b t.1 t.2.1 t.2.2) a).highest_peak := by
  induction l with
  | nil => intro a; simp
  | cons t ts ih =>
    intro a
    calc a.highest_peak ≤ (record_update a t.1 t.2.1 t.2.2).highest_peak :=
          record_update_peak_mono a t.1 t.2.1 t.2.2
      _ ≤ _ := by simpa using ih (record_update a t.1 t.2.1 t.2.2)

/-- Claim C3: across any sequence of record updates, the all-time
record fields `longest_sequence` and `highest_peak` are non-decreasing;
committing the record (`save_all_time_stats` then
`load_all_time_stats`) returns it unchanged; and because the updates
use strict `>` comparisons, a result that only ties the current record
leaves the recorded source number untouched (first seen wins). -/
theorem c3_records_monotone_first_seen_wins (a : AllTimeStats) (l : List (Nat × Nat × Nat)) :
    a.longest_sequence ≤
      (l.foldl (fun b t => record_update b t.1 t.2.1 t.2.2) a).longest_sequence ∧
    a.highest_peak ≤
      (l.foldl (fun b t => record_update b t.1 t.2.1 t.2.2) a).highest_peak ∧
    (∀ conn, load_all_time_stats (save_all_time_stats conn a) = a) ∧
    (∀ num steps max_val, steps ≤ a.longest_sequence →
      (record_update a num steps max_val).longest_num = a.longest_num) ∧
    (∀ num steps max_val, max_val ≤ a.highest_peak →
      (record_update a num steps max_val).highest_peak_num = a.highest_peak_num) := by
  refine ⟨foldl_record_update_longest_mono l a, foldl_record_update_peak_mono l a, ?_, ?_, ?_⟩
  · intro conn
    simp [save_all_time_stats, load_all_time_stats, Conn.commit]
  · intro num steps max_val h
    exact record_update_longest_num_tie a num steps max_val h
  · intro num steps max_val h
    exact record_update_peak_num_tie a num steps max_val h

/-- Witness for C3 at a concrete record and update sequence,
discharging the tie hypotheses at tying inputs. -/
theorem c3_records_monotone_first_seen_wins_witness :
    default_all_time_stats.longest_sequence ≤
      (([(27, 111, 9232)] : List (Nat × Nat × Nat)).foldl
        (fun b t => record_update b t.1 t.2.1 t.2.2) default_all_time_stats).longest_sequence ∧
    default_all_time_stats.highest_peak ≤
      (([(27, 111, 9232)] : List (Nat × Nat × Nat)).foldl
        (fun b t => record_update b t.1 t.2.1 t.2.2) default_all_time_stats).highest_peak ∧
    load_all_time_stats (save_all_time_stats emptyConn default_all_time_stats) =
      default_all_time_stats ∧
    (0 ≤ default_all_time_stats.longest_sequence ∧
      (record_update default_all_time_stats 9 0 0).longest_num =
        default_all_time_stats.longest_num) ∧
    (0 ≤ default_all_time_stats.highest_peak ∧
      (record_update default_all_time_stats 9 0 0).highest_peak_num =
        default_all_time_stats.highest_peak_num) := by
  obtain ⟨h1, h2, h3, h4, h5⟩ :=
    c3_records_monotone_first_seen_wins default_all_time_stats [(27, 111, 9232)]
  exact ⟨h1, h2, h3 emptyConn, ⟨by decide, h4 9 0 0 (by decide)⟩,
    ⟨by decide, h5 9 0 0 (by decide)⟩⟩

/-! ### Evaluator loop lemmas and claim C4 -/

theorem trajHits1_one (t : Nat) : trajHits1 1 t = true := by
  cases t <;> simp [trajHits1]

/-- The structural fuel of `collatzLoop` is irrelevant as long as it
exceeds the number of iterations the `steps > 100000` guard still
allows: the source loop's termination is decided by the guard, never
by the fuel. -/
theorem collatzLoop_fuel_congr : ∀ f1 f2 steps n max_val : Nat,
    steps ≤ 100000 → 100001 - steps < f1 → 100001 - steps < f2 →
    collatzLoop f1 n steps max_val = collatzLoop f2 n steps max_val := by
  intro f1
  induction f1 with
  | zero => intro f2 steps n mv hs hf1 hf2; omega
  | succ f ih =>
    intro f2 steps n mv hs hf1 hf2
    match f2, hf2 with
    | g + 1, hf2 =>
      simp only [collatzLoop]
      by_cases hn : n = 1
      · simp [hn]
      · rw [if_neg hn, if_neg hn]
        by_cases hcut : steps + 1 > 100000
        · rw [if_pos hcut, if_pos hcut]
        · rw [if_neg hcut, if_neg hcut]
          exact ih g (steps + 1) (collatzNext n) (max mv (collatzNext n))
            (by omega) (by omega) (by omega)

/-- If the trajectory does not reach 1 within the iterations the guard
still allows, the loop returns step count 100001 (the guard fires) and
a peak at least the running maximum. -/
theorem collatzLoop_no_hit : ∀ fuel steps n max_val : Nat,
    steps ≤ 100000 → 100002 ≤ fuel + steps →
    trajHits1 n (100000 - steps) = false →
    ∃ M, collatzLoop fuel n steps max_val = (100001, M) ∧ max_val ≤ M := by
  intro fuel
  induction fuel with
  | zero => intro steps n mv hs hf ht; omega
  | succ f ih =>
    intro steps n mv hs hf ht
    have hn : n ≠ 1 := by
      intro he
      rw [he, trajHits1_one] at ht
      cases ht
    simp only [collatzLoop]
    rw [if_neg hn]
    by_cases hcut : steps + 1 > 100000
    · refine ⟨max mv (collatzNext n), ?_, le_max_left _ _⟩
      rw [if_pos hcut]
      have : steps = 100000 := by omega
      rw [this]
    · have hsplit : 100000 - steps = (100000 - (steps + 1)) + 1 := by omega
      rw [hsplit, trajHits1] at ht
      simp only [Bool.or_eq_false_iff] at ht
      obtain ⟨M, hM, hle⟩ := ih (steps + 1) (collatzNext n) (max mv (collatzNext n))
        (by omega) (by omega) ht.2
      refine ⟨M, ?_, le_trans (le_max_left _ _) hle⟩
      rw [if_neg hcut]
      exact hM

/-- When the Collatz trajectory of `n` does not reach 1 within 100000
steps, `collatz_steps` returns exactly 100001 steps (one more than the
cutoff) and a peak at least `n`. -/
theorem collatz_steps_past_cutoff (n : Nat) (h : trajHits1 n 100000 = false) :
    (collatz_steps n).1 = 100001 ∧ n ≤ (collatz_steps n).2 := by
  have hn : n ≠ 1 := by
    intro he
    rw [he, trajHits1_one] at h
    cases h
  unfold collatz_steps
  rw [if_neg hn]
  obtain ⟨M, hM, hle⟩ := collatzLoop_no_hit 100002 0 n n (by omega) (by omega) (by simpa using h)
  rw [hM]
  exact ⟨rfl, hle⟩

/-- A power of two `2 ^ k` needs exactly `k` halvings to reach 1, so
its trajectory has not reached 1 within any `t < k` steps. -/
theorem trajHits1_two_pow : ∀ t k : Nat, t < k → trajHits1 (2 ^ k) t = false := by
  intro t
  induction t with
  | zero =>
    intro k hk
    have h1 : 1 < 2 ^ k := Nat.one_lt_two_pow_iff.mpr (by omega)
    simp [trajHits1]
    omega
  | succ t ih =>
    intro k hk
    match k, hk with
    | m + 1, hk =>
      rw [trajHits1]
      have hnext : collatzNext (2 ^ (m + 1)) = 2 ^ m := by
        unfold collatzNext
        rw [pow_succ]
        have hmod : 2 ^ m * 2 % 2 = 0 := by omega
        rw [if_pos hmod]
        omega
      rw [hnext]
      have h1 : (2 ^ (m + 1) == 1) = false := by
        have : 1 < 2 ^ (m + 1) := Nat.one_lt_two_pow_iff.mpr (by omega)
        simp
        omega
      rw [h1, ih m (by omega)]
      rfl

/-- Counterexample to claim C4 as stated: `2 ^ 100001` is a positive
integer whose trajectory does not reach 1 within the 100000-step
cutoff, yet the evaluator does not return steps equal to the cutoff
(it returns 100001, one more). -/
theorem c4_divergence_guard_counterexample :
    1 ≤ 2 ^ 100001 ∧ trajHits1 (2 ^ 100001) 100000 = false ∧
    (collatz_steps (2 ^ 100001)).1 ≠ 100000 := by
  refine ⟨Nat.one_le_two_pow, trajHits1_two_pow 100000 100001 (by omega), ?_⟩
  have h := collatz_steps_past_cutoff (2 ^ 100001) (trajHits1_two_pow 100000 100001 (by omega))
  omega

/-- Claim C4 (amended): for every positive integer whose trajectory
does not reach 1 within the 100000-step cutoff, the evaluator returns
normally, with steps equal to cutoff + 1 = 100001 (strictly exceeding
the cutoff, which is how the caller can distinguish the partial
result) and a peak at least the input. -/
theorem c4_divergence_guard_amended (n : Nat) ( _h1 : 1 ≤ n)
    (h2 : trajHits1 n 100000 = false) :
    (collatz_steps n).1 = 100001 ∧ n ≤ (collatz_steps n).2 :=
  collatz_steps_past_cutoff n h2

/-- Witness for the amended C4 at the concrete divergent-within-cutoff
input `2 ^ 100001`. -/
theorem c4_divergence_guard_amended_witness :
    1 ≤ 2 ^ 100001 ∧ trajHits1 (2 ^ 100001) 100000 = false ∧
    ((collatz_steps (2 ^ 100001)).1 = 100001 ∧ 2 ^ 100001 ≤ (collatz_steps (2 ^ 100001)).2) :=
  ⟨Nat.one_le_two_pow, trajHits1_two_pow 100000 100001 (by omega),
   c4_divergence_guard_amended (2 ^ 100001) Nat.one_le_two_pow
     (trajHits1_two_pow 100000 100001 (by omega))⟩

/-! ### Sampling-loop lemmas -/

theorem processNew_testCount (num : Nat) (st : LoopState) :
    (processNew num st).testCount = st.testCount + 1 := by
  unfold processNew
  dsimp only
  split <;> split <;> rfl

theorem processNew_conn (num : Nat) (st : LoopState) :
    (processNew num st).conn = st.conn := by
  unfold processNew
  dsimp only
  split <;> split <;> rfl

theorem checkpointFlush_testCount (st : LoopState) :
    (checkpointFlush st).testCount = st.testCount := by
  unfold checkpointFlush
  split <;> rfl

/-- If every candidate the stream can produce is already in the store,
the loop only ever takes the duplicate branch: it terminates without
an exception and without changing the test counter, the connection,
the pending buffer or the in-memory statistics. -/
theorem sampleLoop_all_dups (nt cp ma : Nat) (stream : Nat → Nat) :
    ∀ k attempts st, ma - attempts ≤ k →
    (∀ i, has_been_tested st.conn (stream i) = true) →
    ∃ a st', sampleLoop nt cp ma stream attempts st = (a, st', none) ∧
      st'.testCount = st.testCount ∧ st'.conn = st.conn ∧
      st'.batchToSave = st.batchToSave ∧ st'.allTime = st.allTime := by
  intro k
  induction k with
  | zero =>
    intro attempts st hk hdup
    rw [sampleLoop, dif_neg (by omega : ¬(st.testCount < nt ∧ attempts < ma))]
    exact ⟨attempts, st, rfl, rfl, rfl, rfl, rfl⟩
  | succ k ih =>
    intro attempts st hk hdup
    rw [sampleLoop]
    by_cases hc : st.testCount < nt ∧ attempts < ma
    · rw [dif_pos hc, if_pos (Or.inr (hdup attempts))]
      obtain ⟨a, st', heq, h1, h2, h3, h4⟩ :=
        ih (attempts + 1) { st with duplicatesSkipped := st.duplicatesSkipped + 1 }
          (by omega) (by simpa using hdup)
      exact ⟨a, st', heq, by simpa using h1, by simpa using h2,
        by simpa using h3, by simpa using h4⟩
    · rw [dif_neg hc]
      exact ⟨attempts, st, rfl, rfl, rfl, rfl, rfl⟩

/-- With checkpoint interval 0, the loop either raises the modulo
exception (as soon as it processes any new candidate) or exits with
the test counter unchanged (it never processed one). -/
theorem sampleLoop_checkpoint_zero (nt ma : Nat) (stream : Nat → Nat) :
    ∀ k attempts st, ma - attempts ≤ k →
    (∃ a st', sampleLoop nt 0 ma stream attempts st = (a, st', some PyError.modByZero)) ∨
    (∃ a st', sampleLoop nt 0 ma stream attempts st = (a, st', none) ∧
      st'.testCount = st.testCount) := by
  intro k
  induction k with
  | zero =>
    intro attempts st hk
    rw [sampleLoop, dif_neg (by omega : ¬(st.testCount < nt ∧ attempts < ma))]
    exact Or.inr ⟨attempts, st, rfl, rfl⟩
  | succ k ih =>
    intro attempts st hk
    rw [sampleLoop]
    by_cases hc : st.testCount < nt ∧ attempts < ma
    · rw [dif_pos hc]
      by_cases hdup : stream attempts ∈ st.sessionTested ∨
          has_been_tested st.conn (stream attempts)
      · rw [if_pos hdup]
        rcases ih (attempts + 1) { st with duplicatesSkipped := st.duplicatesSkipped + 1 }
            (by omega) with ⟨a, st', heq⟩ | ⟨a, st', heq, htc⟩
        · exact Or.inl ⟨a, st', heq⟩
        · exact Or.inr ⟨a, st', heq, by simpa using htc⟩
      · rw [if_neg hdup, if_pos rfl]
        exact Or.inl ⟨attempts + 1, processNew (stream attempts) st, rfl⟩
    · rw [dif_neg hc]
      exact Or.inr ⟨attempts, st, rfl, rfl⟩

/-- Loop bounds: the attempt counter never exceeds the cap, the test
counter never exceeds the target, and an exception-free exit happens
exactly at the target or at the attempt cap. -/
theorem sampleLoop_bounds (nt cp ma : Nat) (stream : Nat → Nat) :
    ∀ k attempts st, ma - attempts ≤ k → attempts ≤ ma → st.testCount ≤ nt →
    (sampleLoop nt cp ma stream attempts st).1 ≤ ma ∧
    (sampleLoop nt cp ma stream attempts st).2.1.testCount ≤ nt ∧
    ((sampleLoop nt cp ma stream attempts st).2.2 = none →
      (sampleLoop nt cp ma stream attempts st).2.1.testCount = nt ∨
      (sampleLoop nt cp ma stream attempts st).1 = ma) := by
  intro k
  induction k with
  | zero =>
    intro attempts st hk ha htc
    rw [sampleLoop, dif_neg (by omega : ¬(st.testCount < nt ∧ attempts < ma))]
    refine ⟨ha, htc, fun _ => Or.inr ?_⟩
    show attempts = ma
    omega
  | succ k ih =>
    intro attempts st hk ha htc
    rw [sampleLoop]
    by_cases hc : st.testCount < nt ∧ attempts < ma
    · rw [dif_pos hc]
      by_cases hdup : stream attempts ∈ st.sessionTested ∨
          has_been_tested st.conn (stream attempts)
      · rw [if_pos hdup]
        exact ih (attempts + 1) _ (by omega) (by omega) (by simpa using htc)
      · rw [if_neg hdup]
        by_cases hcp : cp = 0
        · rw [if_pos hcp]
          refine ⟨by omega, ?_, fun hnone => by cases hnone⟩
          rw [processNew_testCount]
          omega
        · rw [if_neg hcp]
          by_cases hmod : (processNew (stream attempts) st).testCount % cp = 0
          · rw [if_pos hmod]
            refine ih (attempts + 1) _ (by omega) (by omega) ?_
            rw [checkpointFlush_testCount, processNew_testCount]
            omega
          · rw [if_neg hmod]
            refine ih (attempts + 1) _ (by omega) (by omega) ?_
            rw [processNew_testCount]
            omega
    · rw [dif_neg hc]
      refine ⟨ha, htc, fun _ => ?_⟩
      show st.testCount = nt ∨ attempts = ma
      omega

/-! ### Claim C8: the sampling loop is bounded -/

/-- Claim C8: for every positive target count (and any candidate
stream and store), the sampling loop terminates having performed at
most `100 * num_tests` generation attempts, and an exception-free exit
happens exactly when the target of new tests is met or the attempt cap
is reached. -/
theorem c8_sampling_loop_terminates_bounded (num_tests : Nat) (stream : Nat → Nat)
    (conn : Conn) ( _h : 1 ≤ num_tests) :
    (sampleLoop num_tests (num_tests / 20) (num_tests * 100) stream 0
        (initialLoopState conn)).1 ≤ num_tests * 100 ∧
    ((sampleLoop num_tests (num_tests / 20) (num_tests * 100) stream 0
        (initialLoopState conn)).2.2 = none →
      (sampleLoop num_tests (num_tests / 20) (num_tests * 100) stream 0
        (initialLoopState conn)).2.1.testCount = num_tests ∨
      (sampleLoop num_tests (num_tests / 20) (num_tests * 100) stream 0
        (initialLoopState conn)).1 = num_tests * 100) := by
  have h := sampleLoop_bounds num_tests (num_tests / 20) (num_tests * 100) stream
    (num_tests * 100) 0 (initialLoopState conn) (by omega) (by omega)
    (by simp [initialLoopState])
  exact ⟨h.1, h.2.2⟩

/-- Witness for C8 with a concrete positive target, stream and store. -/
theorem c8_sampling_loop_terminates_bounded_witness :
    1 ≤ 20 ∧
    ((sampleLoop 20 (20 / 20) (20 * 100) (fun _ => 0) 0
        (initialLoopState emptyConn)).1 ≤ 20 * 100 ∧
    ((sampleLoop 20 (20 / 20) (20 * 100) (fun _ => 0) 0
        (initialLoopState emptyConn)).2.2 = none →
      (sampleLoop 20 (20 / 20) (20 * 100) (fun _ => 0) 0
        (initialLoopState emptyConn)).2.1.testCount = 20 ∨
      (sampleLoop 20 (20 / 20) (20 * 100) (fun _ => 0) 0
        (initialLoopState emptyConn)).1 = 20 * 100)) :=
  ⟨by decide, c8_sampling_loop_terminates_bounded 20 (fun _ => 0) emptyConn (by decide)⟩

/-! ### Claim C9: targets below 20 cannot complete -/

/-- Claim C9: for every target strictly below 20 (and at least 1), the
checkpoint interval `num_tests / 20` is zero and the driver raises
`ZeroDivisionError`: the modulo-by-zero of `test_count % checkpoint`
as soon as it processes a newly tested candidate (in particular
immediately, when the first drawn candidate is fresh), and otherwise —
when the session sees no new candidate at all — the division by zero
of the session average.  Either way no session with such a target
completes. -/
theorem c9_small_target_never_completes (num_tests : Nat) (stream : Nat → Nat)
    (conn : Conn) (h1 : 1 ≤ num_tests) (h2 : num_tests < 20) :
    (test_random_large_numbers num_tests stream conn = Except.error PyError.modByZero ∨
      ((sampleLoop num_tests (num_tests / 20) (num_tests * 100) stream 0
          (initialLoopState conn)).2.1.testCount = 0 ∧
        test_random_large_numbers num_tests stream conn = Except.error PyError.divByZero)) ∧
    (has_been_tested conn (stream 0) = false →
      test_random_large_numbers num_tests stream conn = Except.error PyError.modByZero) := by
  have hcp : num_tests / 20 = 0 := Nat.div_eq_of_lt h2
  constructor
  · rcases sampleLoop_checkpoint_zero num_tests (num_tests * 100) stream (num_tests * 100) 0
        (initialLoopState conn) (by omega) with ⟨a, st', heq⟩ | ⟨a, st', heq, htc⟩
    · left
      simp only [test_random_large_numbers, hcp, heq]
    · right
      have h0 : st'.testCount = 0 := by simpa [initialLoopState] using htc
      constructor
      · rw [hcp, heq]
        exact h0
      · simp only [test_random_large_numbers, hcp, heq]
        simp [h0]
  · intro hfresh
    have hstep : sampleLoop num_tests 0 (num_tests * 100) stream 0 (initialLoopState conn) =
        (1, processNew (stream 0) (initialLoopState conn), some PyError.modByZero) := by
      rw [sampleLoop]
      rw [dif_pos ⟨by simp [initialLoopState]; omega, by omega⟩]
      rw [if_neg (by simp [initialLoopState, hfresh]), if_pos rfl]
    simp only [test_random_large_numbers, hcp, hstep]

/-- Witness for C9: target 5, empty store, first candidate 7 fresh. -/
theorem c9_small_target_never_completes_witness :
    1 ≤ 5 ∧ 5 < 20 ∧ has_been_tested emptyConn 7 = false ∧
    test_random_large_numbers 5 (fun _ => 7) emptyConn = Except.error PyError.modByZero :=
  ⟨by decide, by decide, by decide,
    (c9_small_target_never_completes 5 (fun _ => 7) emptyConn (by decide) (by decide)).2
      (by decide)⟩

/-! ### Claim C10: a session with zero new tests dies on the average -/

/-- Claim C10: if every candidate the stream produces is already in
the store, the sampling loop ends with zero new tests (attempt cap
reached, all duplicates) and the driver raises `ZeroDivisionError`
while computing the session average `session_total_steps / test_count`
instead of returning the session summary and appending the
results-log entry. -/
theorem c10_zero_new_tests_zero_division (num_tests : Nat) (stream : Nat → Nat)
    (conn : Conn) ( _h1 : 1 ≤ num_tests)
    (hdup : ∀ i, has_been_tested conn (stream i) = true) :
    test_random_large_numbers num_tests stream conn = Except.error PyError.divByZero := by
  obtain ⟨a, st', heq, htc, _, _, _⟩ :=
    sampleLoop_all_dups num_tests (num_tests / 20) (num_tests * 100) stream
      (num_tests * 100) 0 (initialLoopState conn) (by omega)
      (by simpa [initialLoopState] using hdup)
  have h0 : st'.testCount = 0 := by simpa [initialLoopState] using htc
  simp only [test_random_large_numbers, heq]
  simp [h0]

/-- Witness for C10: target 1, a store already holding 5, and a stream
that always draws 5. -/
theorem c10_zero_new_tests_zero_division_witness :
    1 ≤ 1 ∧
    has_been_tested (Conn.commit (mark_tested_batch emptyConn [5])) 5 = true ∧
    test_random_large_numbers 1 (fun _ => 5) (Conn.commit (mark_tested_batch emptyConn [5])) =
      Except.error PyError.divByZero :=
  ⟨by decide, by decide,
    c10_zero_new_tests_zero_division 1 (fun _ => 5)
      (Conn.commit (mark_tested_batch emptyConn [5])) (by decide)
      (by
        intro i
        exact (by decide :
          has_been_tested (Conn.commit (mark_tested_batch emptyConn [5])) 5 = true))⟩

/-! ### Claim C6: what a checkpoint persists -/

theorem insert_or_ignore_statsRow (c : Conn) (n : Nat) :
    (insert_or_ignore c n).statsRow = c.statsRow ∧
    (insert_or_ignore c n).pendStatsRow = c.pendStatsRow := by
  unfold insert_or_ignore
  split <;> exact ⟨rfl, rfl⟩

theorem mark_tested_batch_statsRow : ∀ (ns : List Nat) (c : Conn),
    (mark_tested_batch c ns).statsRow = c.statsRow ∧
    (mark_tested_batch c ns).pendStatsRow = c.pendStatsRow := by
  intro ns
  induction ns with
  | nil => intro c; exact ⟨rfl, rfl⟩
  | cons y ys ih =>
    intro c
    have hstep : mark_tested_batch c (y :: ys) = mark_tested_batch (insert_or_ignore c y) ys := by
      simp [mark_tested_batch]
    rw [hstep]
    obtain ⟨h1, h2⟩ := ih (insert_or_ignore c y)
    obtain ⟨h3, h4⟩ := insert_or_ignore_statsRow c y
    exact ⟨h1.trans h3, h2.trans h4⟩

set_option maxRecDepth 40000 in
/-- Counterexample to claim C6 as stated: in a session with target 20
(checkpoint interval `20 / 20 = 1`), processing the first fresh
candidate `2` lands exactly on a checkpoint
(`test_count % checkpoint = 0`), and the driver's checkpoint action
(`checkpointFlush`) commits the digest of `2` — yet the stored
statistics row still reads as the zero record, while the in-memory
all-time record is already non-zero.  The checkpoint persists the
digests alone, not the statistics. -/
theorem c6_checkpoint_skips_stats_counterexample :
    (processNew 2 (initialLoopState emptyConn)).testCount % (20 / 20) = 0 ∧
    has_been_tested (checkpointFlush (processNew 2 (initialLoopState emptyConn))).conn 2 = true ∧
    load_all_time_stats (checkpointFlush (processNew 2 (initialLoopState emptyConn))).conn =
      default_all_time_stats ∧
    (checkpointFlush (processNew 2 (initialLoopState emptyConn))).allTime ≠
      default_all_time_stats := by
  decide

/-- Claim C6 (amended): at a checkpoint, the driver flushes the
pending buffer via the membership batch insert followed by a commit
and clears the buffer — but it does not write the statistics row: the
committed statistics are left exactly as they were (the in-memory
record, which it also leaves untouched, is only committed by
`save_all_time_stats` at session finalisation, 3x1.py line 286). -/
theorem c6_checkpoint_flushes_digests_only (st : LoopState)
    (h : st.conn.pendStatsRow = none) :
    (∀ x ∈ st.batchToSave, has_been_tested (checkpointFlush st).conn x = true) ∧
    (checkpointFlush st).batchToSave = [] ∧
    (checkpointFlush st).conn.statsRow = st.conn.statsRow ∧
    (checkpointFlush st).allTime = st.allTime := by
  unfold checkpointFlush
  by_cases hb : st.batchToSave = []
  · rw [if_pos hb]
    refine ⟨?_, hb, rfl, rfl⟩
    intro x hx
    rw [hb] at hx
    cases hx
  · rw [if_neg hb]
    refine ⟨?_, rfl, ?_, rfl⟩
    · intro x hx
      have hmem := mark_tested_batch_mem st.batchToSave st.conn x hx
      simp only [has_been_tested, Conn.commit, Finset.union_empty, decide_eq_true_eq]
      simpa using hmem
    · show (Conn.commit (mark_tested_batch st.conn st.batchToSave)).statsRow = st.conn.statsRow
      obtain ⟨h1, h2⟩ := mark_tested_batch_statsRow st.batchToSave st.conn
      simp [Conn.commit, h2, h, h1]

/-- Witness for the amended C6 on a concrete loop state with pending
buffer `[3]`, instantiating the flushed-digest conjunct at `3`. -/
theorem c6_checkpoint_flushes_digests_only_witness :
    ({ initialLoopState emptyConn with batchToSave := [3] } : LoopState).conn.pendStatsRow
        = none ∧
    has_been_tested
      (checkpointFlush { initialLoopState emptyConn with batchToSave := [3] }).conn 3 = true ∧
    (checkpointFlush { initialLoopState emptyConn with batchToSave := [3] }).batchToSave = [] ∧
    (checkpointFlush { initialLoopState emptyConn with batchToSave := [3] }).conn.statsRow =
      ({ initialLoopState emptyConn with batchToSave := [3] } : LoopState).conn.statsRow ∧
    (checkpointFlush { initialLoopState emptyConn with batchToSave := [3] }).allTime =
      ({ initialLoopState emptyConn with batchToSave := [3] } : LoopState).allTime := by
  obtain ⟨h1, h2, h3, h4⟩ :=
    c6_checkpoint_flushes_digests_only { initialLoopState emptyConn with batchToSave := [3] }
      (by decide)
  exact ⟨by decide, h1 3 (by decide), h2, h3, h4⟩

/-! ### Claim C7: behaviour on a corrupt store file -/

/-- Counterexample to claim C7 as stated: opening a corrupt store file
does not signal a `CorruptStoreError` to the caller — `init_db`
removes the corrupt file itself and returns a fresh, empty store (the
prior contents are discarded inside the component, lines 31-40 of
3x1.py). -/
theorem c7_corrupt_open_counterexample :
    init_db FileState.corrupt = Except.ok emptyConn ∧
    init_db FileState.corrupt ≠ Except.error StoreError.corruptStore ∧
    get_tested_count emptyConn = 0 := by
  refine ⟨rfl, ?_, by decide⟩
  simp [init_db]

/-- Claim C7 (amended): on structural corruption detected at open, the
component does not signal an error at all: it repairs by discarding
and recreating the store itself (returning a fresh empty connection),
so the recreate decision is taken inside the component, not by the
caller; indeed `init_db` returns successfully on every file state. -/
theorem c7_corrupt_open_recreates (fs : FileState) :
    init_db FileState.corrupt = Except.ok emptyConn ∧
    get_tested_count emptyConn = 0 ∧
    ∃ c : Conn, init_db fs = Except.ok c := by
  refine ⟨rfl, by decide, ?_⟩
  cases fs with
  | absent => exact ⟨emptyConn, rfl⟩
  | valid t s => exact ⟨⟨t, s, ∅, none⟩, rfl⟩
  | corrupt => exact ⟨emptyConn, rfl⟩
